import Mathlib

/-!
Verification of the Docker Compose analyzer core (`src/main.py`).

The analyzer ingests a parsed YAML manifest (a tree of mappings, sequences
and scalars), normalizes each service fragment, classifies it
(database-like, publicly exposed, stateful), recommends a managed cloud
service, scores per-service risks, and aggregates an infrastructure-level
summary.  All Python functions of the core are embedded below as
executable Lean definitions over an inductive type of YAML values, and
the specification's claims are settled as theorems about them.
-/

namespace HelixInfra

/-- YAML values as produced by the external parser and consumed by the
core: null, booleans, (unbounded) integers, strings, sequences and
mappings.  Mapping entries are kept in insertion order, mirroring Python
dictionaries. -/
inductive Yaml where
  | null
  | bool (b : Bool)
  | int (n : Int)
  | str (s : String)
  | list (xs : List Yaml)
  | map (kvs : List (Yaml × Yaml))

/-- Comma-and-space separated join, as Python's repr uses between
container elements. -/
def joinComma : List String → String
  | [] => ""
  | [s] => s
  | s :: rest => s ++ ", " ++ joinComma rest

mutual
/-- Python `repr` of a YAML value (the form `str` falls back to for
non-string values).  String quoting is modelled without escape
processing, which no code path of the analyzer depends on. -/
def pyrepr : Yaml → String
  | .null => "None"
  | .bool b => if b then "True" else "False"
  | .int n => toString n
  | .str s => "'" ++ s ++ "'"
  | .list xs => "[" ++ joinComma (pyreprList xs) ++ "]"
  | .map kvs => "\x7b" ++ joinComma (pyreprPairs kvs) ++ "\x7d"

/-- `pyrepr` mapped over a sequence. -/
def pyreprList : List Yaml → List String
  | [] => []
  | x :: xs => pyrepr x :: pyreprList xs

/-- `pyrepr` of the `key: value` entries of a mapping. -/
def pyreprPairs : List (Yaml × Yaml) → List String
  | [] => []
  | (k, v) :: kvs => (pyrepr k ++ ": " ++ pyrepr v) :: pyreprPairs kvs
end

/-- Python `str()` of a YAML value: strings are returned as-is, all other
values via their repr. -/
def pystr : Yaml → String
  | .str s => s
  | v => pyrepr v

/-- Python `str.lower()` (charwise ASCII lowering, which is all the
analyzer's inputs exercise). -/
def pyLower (s : String) : String := ⟨s.data.map Char.toLower⟩

/-- `pat` occurs at the front of `l`. -/
def listStartsWith : List Char → List Char → Bool
  | _, [] => true
  | [], _ :: _ => false
  | c :: cs, p :: ps => c == p && listStartsWith cs ps

/-- `pat` occurs as a contiguous run somewhere in `l`. -/
def containsSub : List Char → List Char → Bool
  | l, pat =>
    if listStartsWith l pat then true
    else match l with
      | [] => false
      | _ :: rest => containsSub rest pat

/-- Python's `needle in hay` substring test. -/
def pyContains (hay needle : String) : Bool := containsSub hay.data needle.data

/-- Split a character list on a separator; like Python `str.split(sep)`,
the result always has one more group than there are separators. -/
def splitCharsOn (sep : Char) : List Char → List (List Char)
  | [] => [[]]
  | c :: rest =>
    if c == sep then [] :: splitCharsOn sep rest
    else match splitCharsOn sep rest with
      | [] => [[c]]
      | g :: gs => (c :: g) :: gs

/-- Python `s.split(":")`. -/
def pySplitColon (s : String) : List String :=
  (splitCharsOn ':' s.data).map (fun l => ⟨l⟩)

/-- Python `str.isdigit()` (restricted to ASCII digits, which is all the
analyzer's port strings exercise): nonempty and all characters digits. -/
def pyIsDigit (s : String) : Bool := !s.data.isEmpty && s.data.all Char.isDigit

mutual
/-- Python equality between YAML values, as used for dictionary key
lookup.  Python's `bool` is a subclass of `int`, so `True == 1`;
sequences and mappings are compared structurally (they are unhashable in
Python and therefore never occur as mapping keys in parsed YAML). -/
def yamlBeq : Yaml → Yaml → Bool
  | .null, .null => true
  | .bool a, .bool b => a == b
  | .bool a, .int b => (if a then (1 : Int) else 0) == b
  | .int a, .bool b => a == (if b then (1 : Int) else 0)
  | .int a, .int b => a == b
  | .str a, .str b => a == b
  | .list a, .list b => yamlListBeq a b
  | .map a, .map b => yamlPairsBeq a b
  | _, _ => false

/-- Elementwise `yamlBeq` on sequences. -/
def yamlListBeq : List Yaml → List Yaml → Bool
  | [], [] => true
  | a :: as', b :: bs => yamlBeq a b && yamlListBeq as' bs
  | _, _ => false

/-- Pairwise `yamlBeq` on mapping entries. -/
def yamlPairsBeq : List (Yaml × Yaml) → List (Yaml × Yaml) → Bool
  | [], [] => true
  | (ka, va) :: as', (kb, vb) :: bs => yamlBeq ka kb && yamlBeq va vb && yamlPairsBeq as' bs
  | _, _ => false
end

/-- Python `dict.get(key, default)` on a mapping's entry list. -/
def dictGetD (kvs : List (Yaml × Yaml)) (key default : Yaml) : Yaml :=
  match kvs.find? (fun p => yamlBeq p.1 key) with
  | some p => p.2
  | none => default

/-- Keywords used to identify common database/cache container images
(`DATABASE_IMAGE_KEYWORDS` in the source). -/
def DATABASE_IMAGE_KEYWORDS : List String :=
  ["postgres", "mysql", "mariadb", "mongo", "redis"]

/-- `normalize_to_list`: missing values become `[]`, lists stay, any
other value is wrapped in a singleton list. -/
def normalize_to_list : Yaml → List Yaml
  | .null => []
  | .list xs => xs
  | v => [v]

/-- `normalize_environment`: missing values become `[]`, lists and dicts
stay as they are, any other value is wrapped in a singleton list. -/
def normalize_environment : Yaml → Yaml
  | .null => .list []
  | .list xs => .list xs
  | .map kvs => .map kvs
  | v => .list [v]

/-- `is_database_image`: keyword-based detection of database-like images.
Python's `if not image` treats both `None` and the empty string as
missing. -/
def is_database_image : Option String → Bool
  | none => false
  | some s =>
    if s = "" then false
    else DATABASE_IMAGE_KEYWORDS.any (fun kw => pyContains (pyLower s) kw)

/-- `is_redis_image`: redis-specific check used for the cloud service
recommendation override. -/
def is_redis_image : Option String → Bool
  | none => false
  | some s => if s = "" then false else pyContains (pyLower s) "redis"

/-- `is_publicly_exposed_ports`: scans the port entries, mirroring the
source's early-return loop.  A Python `bool` entry reaches the
`isinstance(port, int)` branch with value 0 or 1, which is never 80 or
443, so it never matches. -/
def is_publicly_exposed_ports : List Yaml → Bool
  | [] => false
  | port :: rest =>
    match port with
    | .str s =>
      let lowered := pyLower s
      if pyContains lowered "0.0.0.0" then true
      else if ((pySplitColon lowered).filter pyIsDigit).any
          (fun num => num == "80" || num == "443") then true
      else is_publicly_exposed_ports rest
    | .int n =>
      if n == 80 || n == 443 then true
      else is_publicly_exposed_ports rest
    | .map kvs =>
      let host_ip := pyLower (pystr (dictGetD kvs (.str "host_ip") (.str "")))
      let target := pystr (dictGetD kvs (.str "target") (.str ""))
      let published := pystr (dictGetD kvs (.str "published") (.str ""))
      if host_ip == "0.0.0.0" then true
      else if target == "80" || target == "443" || published == "80" || published == "443" then
        true
      else is_publicly_exposed_ports rest
    | _ => is_publicly_exposed_ports rest

/-- `has_persistent_storage`: any declared volume marks the service as
stateful. -/
def has_persistent_storage (volumes : List Yaml) : Bool :=
  decide (volumes.length > 0)

/-- `suggest_cloud_service`: redis images map to a managed cache, other
database images to a managed relational database, everything else to a
generic compute target. -/
def suggest_cloud_service (image : Option String) (database_flag : Bool) : String :=
  if is_redis_image image then "Managed Cache Service"
  else if database_flag then "Managed Relational Database Service"
  else "Virtual Machine or Container Service"

/-- `assess_exposure_risk`. -/
def assess_exposure_risk (is_database is_publicly_exposed : Bool) : String :=
  if is_publicly_exposed && is_database then "High"
  else if is_publicly_exposed && !is_database then "Medium"
  else "Low"

/-- `assess_data_loss_risk`. -/
def assess_data_loss_risk (is_database has_persistent_storage_flag : Bool) : String :=
  if is_database && has_persistent_storage_flag then "High"
  else if has_persistent_storage_flag then "Medium"
  else "Low"

/-- `assess_migration_complexity`: thresholds on the total compose
service count. -/
def assess_migration_complexity (total_services : Nat) : String :=
  if total_services > 6 then "High"
  else if total_services > 3 then "Medium"
  else "Low"

/-- Per-service risk record assembled by `build_risk_assessment`. -/
structure RiskAssessment where
  exposure_risk : String
  data_loss_risk : String
  migration_complexity : String
deriving DecidableEq, Repr

/-- `build_risk_assessment`. -/
def build_risk_assessment (is_database is_publicly_exposed has_persistent_storage_flag : Bool)
    (total_services : Nat) : RiskAssessment :=
  { exposure_risk := assess_exposure_risk is_database is_publicly_exposed
    data_loss_risk := assess_data_loss_risk is_database has_persistent_storage_flag
    migration_complexity := assess_migration_complexity total_services }

/-- `assess_overall_migration_risk`. -/
def assess_overall_migration_risk (total_stateful_services : Nat)
    (has_publicly_exposed_database : Bool) : String :=
  if has_publicly_exposed_database then "High"
  else if total_stateful_services > 2 then "Medium"
  else "Low"

/-- One normalized, classified service as built by the per-service loop
of `analyze_compose`. -/
structure NormalizedService where
  image : Option String
  ports : List Yaml
  environment : Yaml
  volumes : List Yaml
  is_database : Bool
  is_publicly_exposed : Bool
  has_persistent_storage : Bool
  suggested_cloud_service : String
  risk_assessment : RiskAssessment

/-- Aggregate counters of `build_infrastructure_summary`. -/
structure InfrastructureSummary where
  total_services : Nat
  total_database_services : Nat
  total_publicly_exposed_services : Nat
  total_stateful_services : Nat
  overall_migration_risk : String
deriving DecidableEq, Repr

/-- `build_infrastructure_summary`: fold the classified services into the
aggregate counters and the overall migration risk. -/
def build_infrastructure_summary (services : List (String × NormalizedService)) :
    InfrastructureSummary :=
  let total_services := services.length
  let total_database_services := services.countP (fun svc => svc.2.is_database)
  let total_publicly_exposed_services := services.countP (fun svc => svc.2.is_publicly_exposed)
  let total_stateful_services := services.countP (fun svc => svc.2.has_persistent_storage)
  let has_publicly_exposed_database :=
    services.any (fun svc => svc.2.is_database && svc.2.is_publicly_exposed)
  { total_services := total_services
    total_database_services := total_database_services
    total_publicly_exposed_services := total_publicly_exposed_services
    total_stateful_services := total_stateful_services
    overall_migration_risk :=
      assess_overall_migration_risk total_stateful_services has_publicly_exposed_database }

/-- The body of the per-service loop of `analyze_compose`: coerce a
non-mapping fragment to an empty configuration, extract and normalize
the fields, classify, recommend and score. -/
def processService (total : Nat) (config : Yaml) : NormalizedService :=
  let service_config : List (Yaml × Yaml) :=
    match config with
    | .map kvs => kvs
    | _ => []
  let imageRaw := dictGetD service_config (.str "image") .null
  let image_value : Option String :=
    match imageRaw with
    | .null => none
    | v => some (pystr v)
  let ports := normalize_to_list (dictGetD service_config (.str "ports") .null)
  let environment := normalize_environment (dictGetD service_config (.str "environment") .null)
  let volumes := normalize_to_list (dictGetD service_config (.str "volumes") .null)
  let database_flag := is_database_image image_value
  let publicly_exposed_flag := is_publicly_exposed_ports ports
  let persistent_storage_flag := has_persistent_storage volumes
  { image := image_value
    ports := ports
    environment := environment
    volumes := volumes
    is_database := database_flag
    is_publicly_exposed := publicly_exposed_flag
    has_persistent_storage := persistent_storage_flag
    suggested_cloud_service := suggest_cloud_service image_value database_flag
    risk_assessment :=
      build_risk_assessment database_flag publicly_exposed_flag persistent_storage_flag total }

/-- Python dictionary assignment `d[k] = v`: replace the value in place
if the key exists (keeping its position), otherwise append. -/
def upsert (k : String) (v : NormalizedService) :
    List (String × NormalizedService) → List (String × NormalizedService)
  | [] => [(k, v)]
  | (k0, v0) :: rest =>
    if k0 = k then (k0, v) :: rest else (k0, v0) :: upsert k v rest

/-- The per-service loop of `analyze_compose`: iterate the input services
in order, stringify each name and assign the processed record into the
output dictionary. -/
def buildServices (total : Nat) : List (Yaml × Yaml) →
    List (String × NormalizedService) → List (String × NormalizedService)
  | [], acc => acc
  | (name, config) :: rest, acc =>
    buildServices total rest (upsert (pystr name) (processService total config) acc)

/-- The response payload of `analyze_compose`. -/
structure AnalyzeResponse where
  service_count : Nat
  services : List (String × NormalizedService)
  infrastructure_summary : InfrastructureSummary

/-- The core of `analyze_compose` after transport/parsing validation: the
input is the entry list of the manifest's `services` mapping. -/
def analyze_compose (services_data : List (Yaml × Yaml)) : AnalyzeResponse :=
  let service_count_total := services_data.length
  let normalized_services := buildServices service_count_total services_data []
  { service_count := normalized_services.length
    services := normalized_services
    infrastructure_summary := build_infrastructure_summary normalized_services }

/-- The fragment of a service is a mapping. -/
def Yaml.isMap : Yaml → Bool
  | .map _ => true
  | _ => false

/-- Two consecutive runs of the pipeline on the same input manifest. -/
def analyzeTwice (services_data : List (Yaml × Yaml)) : AnalyzeResponse × AnalyzeResponse :=
  (analyze_compose services_data, analyze_compose services_data)

section CharLemmas

theorem char_toNat_ofNat_of_valid (n : Nat) (hv : n.isValidChar) : (Char.ofNat n).toNat = n := by
  simp [Char.ofNat, hv, Char.ofNatAux, Char.toNat]
  rfl

theorem char_isDigit_iff_toNat (c : Char) :
    c.isDigit = true ↔ 48 ≤ c.toNat ∧ c.toNat ≤ 57 := by
  simp only [Char.isDigit, Bool.and_eq_true, decide_eq_true_eq, ge_iff_le,
    UInt32.le_def, BitVec.le_def]
  constructor
  · rintro ⟨h1, h2⟩
    exact ⟨by simpa [Char.toNat, UInt32.toNat] using h1,
      by simpa [Char.toNat, UInt32.toNat] using h2⟩
  · rintro ⟨h1, h2⟩
    exact ⟨by simpa [Char.toNat, UInt32.toNat] using h1,
      by simpa [Char.toNat, UInt32.toNat] using h2⟩

theorem char_toLower_eq_of_not_upper (c : Char) (h : ¬ (65 ≤ c.toNat ∧ c.toNat ≤ 90)) :
    c.toLower = c := by
  simp [Char.toLower]
  intro h1 h2
  exact absurd ⟨h1, h2⟩ h

theorem char_toLower_eq_ofNat (c : Char) (h : 65 ≤ c.toNat ∧ c.toNat ≤ 90) :
    c.toLower = Char.ofNat (c.toNat + 32) := by
  simp [Char.toLower, h]

theorem char_toLower_colon_iff (c : Char) : c.toLower = ':' ↔ c = ':' := by
  constructor
  · intro h
    by_cases hcond : 65 ≤ c.toNat ∧ c.toNat ≤ 90
    · exfalso
      have h' := char_toLower_eq_ofNat c hcond
      have hval : (Char.ofNat (c.toNat + 32)).toNat = c.toNat + 32 :=
        char_toNat_ofNat_of_valid _ (Or.inl (by omega))
      rw [h] at h'
      rw [← h'] at hval
      have hc : (':' : Char).toNat = 58 := by decide
      omega
    · rw [← char_toLower_eq_of_not_upper c hcond, h]
  · intro h; subst h; decide

theorem char_toLower_of_digit (c : Char) (h : c.isDigit = true) : c.toLower = c := by
  have := (char_isDigit_iff_toNat c).mp h
  exact char_toLower_eq_of_not_upper c (by omega)

theorem char_isDigit_toLower (c : Char) : c.toLower.isDigit = c.isDigit := by
  by_cases hcond : 65 ≤ c.toNat ∧ c.toNat ≤ 90
  · rw [char_toLower_eq_ofNat c hcond]
    have hval : (Char.ofNat (c.toNat + 32)).toNat = c.toNat + 32 :=
      char_toNat_ofNat_of_valid _ (Or.inl (by omega))
    have h1 : (Char.ofNat (c.toNat + 32)).isDigit = false := by
      rw [← Bool.not_eq_true, char_isDigit_iff_toNat]
      omega
    have h2 : c.isDigit = false := by
      rw [← Bool.not_eq_true, char_isDigit_iff_toNat]
      omega
    rw [h1, h2]
  · rw [char_toLower_eq_of_not_upper c hcond]

end CharLemmas

/-- Spec-side predicate on one port entry, following the specification's
wording for when a port entry marks the service as publicly exposed: a
string containing the substring 0.0.0.0 case-insensitively; a string
that, split on colons, has a purely-numeric segment equal to 80 or 443;
the integer 80 or 443; or a mapping whose host_ip coerces to the
lowercased string 0.0.0.0 or whose target or published coerces to the
string 80 or 443. -/
def specPortEntryExposed : Yaml → Bool
  | .str s =>
    pyContains (pyLower s) "0.0.0.0" ||
      (pySplitColon s).any (fun seg => pyIsDigit seg && (seg == "80" || seg == "443"))
  | .int n => n == 80 || n == 443
  | .map kvs =>
    pyLower (pystr (dictGetD kvs (.str "host_ip") (.str ""))) == "0.0.0.0" ||
      pystr (dictGetD kvs (.str "target") (.str "")) == "80" ||
      pystr (dictGetD kvs (.str "target") (.str "")) == "443" ||
      pystr (dictGetD kvs (.str "published") (.str "")) == "80" ||
      pystr (dictGetD kvs (.str "published") (.str "")) == "443"
  | _ => false

section SplitLowerLemmas

theorem splitCharsOn_ne_nil (sep : Char) (l : List Char) : splitCharsOn sep l ≠ [] := by
  cases l with
  | nil => simp [splitCharsOn]
  | cons c rest =>
    simp only [splitCharsOn]
    split
    · simp
    · split <;> simp

theorem splitCharsOn_map_toLower (l : List Char) :
    splitCharsOn ':' (l.map Char.toLower) = (splitCharsOn ':' l).map (List.map Char.toLower) := by
  induction l with
  | nil => simp [splitCharsOn]
  | cons c rest ih =>
    by_cases hc : c = ':'
    · subst hc
      have hlow : Char.toLower ':' = ':' := by decide
      simp [splitCharsOn, hlow, ih]
    · have hlow : Char.toLower c ≠ ':' := fun h => hc ((char_toLower_colon_iff c).mp h)
      obtain ⟨g, gs, hsplit⟩ := List.exists_cons_of_ne_nil (splitCharsOn_ne_nil ':' rest)
      simp only [List.map_cons, splitCharsOn, beq_iff_eq, hc, hlow, if_false, ih, hsplit,
        List.map_map]

theorem pySplitColon_pyLower (s : String) :
    pySplitColon (pyLower s) = (pySplitColon s).map pyLower := by
  show (splitCharsOn ':' (s.data.map Char.toLower)).map _ = _
  rw [splitCharsOn_map_toLower]
  simp only [pySplitColon, List.map_map]
  rfl

theorem pyIsDigit_pyLower (s : String) : pyIsDigit (pyLower s) = pyIsDigit s := by
  show (!(s.data.map Char.toLower).isEmpty && (s.data.map Char.toLower).all Char.isDigit)
      = (!s.data.isEmpty && s.data.all Char.isDigit)
  have h : (fun c => (Char.toLower c).isDigit) = Char.isDigit := funext char_isDigit_toLower
  rw [List.all_map]
  show (!(s.data.map Char.toLower).isEmpty
      && s.data.all (fun c => (Char.toLower c).isDigit)) = _
  rw [h]
  cases s.data <;> simp

theorem pyLower_of_pyIsDigit (s : String) (h : pyIsDigit s = true) : pyLower s = s := by
  have hall : ∀ c ∈ s.data, c.isDigit = true := by
    have := (Bool.and_eq_true _ _).mp h
    exact fun c hc => by
      have := List.all_eq_true.mp this.2 c hc
      simpa using this
  show (⟨s.data.map Char.toLower⟩ : String) = s
  have : s.data.map Char.toLower = s.data :=
    (List.map_congr_left (fun c hc => char_toLower_of_digit c (hall c hc))).trans
      (List.map_id _)
  rw [this]

theorem numeric_segment_any_lowered (s : String) :
    ((pySplitColon (pyLower s)).filter pyIsDigit).any (fun num => num == "80" || num == "443")
      = (pySplitColon s).any (fun seg => pyIsDigit seg && (seg == "80" || seg == "443")) := by
  rw [pySplitColon_pyLower]
  have hfilter : ∀ l : List String,
      (l.filter pyIsDigit).any (fun num => num == "80" || num == "443")
        = l.any (fun seg => pyIsDigit seg && (seg == "80" || seg == "443")) := by
    intro l
    induction l with
    | nil => rfl
    | cons x xs ih =>
      by_cases hx : pyIsDigit x = true
      · simp [List.filter_cons, hx, List.any_cons, ih]
      · simp only [Bool.not_eq_true] at hx
        simp [List.filter_cons, hx, List.any_cons, ih]
  rw [hfilter, List.any_map]
  have hpt : ∀ seg : String,
      (pyIsDigit (pyLower seg) && (pyLower seg == "80" || pyLower seg == "443"))
        = (pyIsDigit seg && (seg == "80" || seg == "443")) := by
    intro seg
    by_cases hd : pyIsDigit seg = true
    · rw [pyLower_of_pyIsDigit seg hd]
    · simp only [Bool.not_eq_true] at hd
      rw [pyIsDigit_pyLower, hd]
      simp
  have : (fun seg => pyIsDigit (pyLower seg) && (pyLower seg == "80" || pyLower seg == "443"))
      = (fun seg => pyIsDigit seg && (seg == "80" || seg == "443")) := funext hpt
  show List.any _ ((fun seg => pyIsDigit seg && (seg == "80" || seg == "443")) ∘ pyLower) = _
  rw [Function.comp_def]
  rw [this]

end SplitLowerLemmas

theorem is_publicly_exposed_ports_cons (p : Yaml) (rest : List Yaml) :
    is_publicly_exposed_ports (p :: rest)
      = (specPortEntryExposed p || is_publicly_exposed_ports rest) := by
  cases p with
  | null => simp [is_publicly_exposed_ports, specPortEntryExposed]
  | bool b => simp [is_publicly_exposed_ports, specPortEntryExposed]
  | list xs => simp [is_publicly_exposed_ports, specPortEntryExposed]
  | int n =>
    cases h : (n == 80 || n == 443) <;>
      simp [is_publicly_exposed_ports, specPortEntryExposed, h]
  | str s =>
    simp only [is_publicly_exposed_ports, specPortEntryExposed, numeric_segment_any_lowered]
    cases h1 : pyContains (pyLower s) "0.0.0.0" <;>
      cases h2 : (pySplitColon s).any (fun seg => pyIsDigit seg && (seg == "80" || seg == "443")) <;>
      simp [h1, h2]
  | map kvs =>
    simp only [is_publicly_exposed_ports, specPortEntryExposed]
    cases h1 : pyLower (pystr (dictGetD kvs (.str "host_ip") (.str ""))) == "0.0.0.0" <;>
      cases h2 : pystr (dictGetD kvs (.str "target") (.str "")) == "80" <;>
      cases h3 : pystr (dictGetD kvs (.str "target") (.str "")) == "443" <;>
      cases h4 : pystr (dictGetD kvs (.str "published") (.str "")) == "80" <;>
      cases h5 : pystr (dictGetD kvs (.str "published") (.str "")) == "443" <;>
      simp [h1, h2, h3, h4, h5]

/-- Claim C1: `is_publicly_exposed_ports` is true iff some port entry
satisfies the spec's exposure condition (0.0.0.0 substring, numeric
80/443 segment, integer 80/443, or matching long-form mapping fields);
it is false on the empty sequence, true on the four positive examples
and false on the three negative ones. -/
theorem is_publicly_exposed_ports_matches_spec :
    (∀ ports : List Yaml,
      is_publicly_exposed_ports ports = ports.any specPortEntryExposed) ∧
    is_publicly_exposed_ports [] = false ∧
    is_publicly_exposed_ports [.str "8080:80"] = true ∧
    is_publicly_exposed_ports [.int 80] = true ∧
    is_publicly_exposed_ports
      [.map [(.str "host_ip", .str "0.0.0.0"), (.str "target", .int 8080)]] = true ∧
    is_publicly_exposed_ports [.str "0.0.0.0:443:443"] = true ∧
    is_publicly_exposed_ports [.str "8080:8081"] = false ∧
    is_publicly_exposed_ports [.map [(.str "target", .int 8081)]] = false := by
  refine ⟨?_, by decide, by decide, by decide, by decide, by decide, by decide, by decide⟩
  intro ports
  induction ports with
  | nil => rfl
  | cons p rest ih => rw [is_publicly_exposed_ports_cons, List.any_cons, ih]

/-- Claim C6: `is_database_image` is true iff the image is present and
its lowercased form contains one of the five database keywords; checked
on the spec's examples. -/
theorem is_database_image_matches_spec :
    (∀ image : Option String, is_database_image image =
      (match image with
       | some s =>
         pyContains (pyLower s) "postgres" || pyContains (pyLower s) "mysql" ||
           pyContains (pyLower s) "mariadb" || pyContains (pyLower s) "mongo" ||
           pyContains (pyLower s) "redis"
       | none => false)) ∧
    is_database_image (some "postgres:16") = true ∧
    is_database_image (some "my-mongo-db") = true ∧
    is_database_image (some "redis:7") = true ∧
    is_database_image (some "nginx:latest") = false ∧
    is_database_image none = false := by
  refine ⟨?_, by decide, by decide, by decide, by decide, rfl⟩
  intro image
  cases image with
  | none => rfl
  | some s =>
    by_cases hs : s = ""
    · subst hs
      simp only [is_database_image, if_pos rfl]
      decide
    · simp [is_database_image, hs, DATABASE_IMAGE_KEYWORDS, Bool.or_assoc]

/-- Claim C2: for every mapping of classified service records,
`build_infrastructure_summary` returns the entry count, the counts of
database / publicly-exposed / stateful entries, and an overall migration
risk that is High when some entry is both a database and publicly
exposed, else Medium when more than 2 entries are stateful, else Low. -/
theorem build_infrastructure_summary_matches_spec
    (services : List (String × NormalizedService)) :
    build_infrastructure_summary services =
      { total_services := services.length
        total_database_services := (services.filter (fun svc => svc.2.is_database)).length
        total_publicly_exposed_services :=
          (services.filter (fun svc => svc.2.is_publicly_exposed)).length
        total_stateful_services :=
          (services.filter (fun svc => svc.2.has_persistent_storage)).length
        overall_migration_risk :=
          if services.any (fun svc => svc.2.is_database && svc.2.is_publicly_exposed) then "High"
          else if (services.filter (fun svc => svc.2.has_persistent_storage)).length > 2 then
            "Medium"
          else "Low" } := by
  simp only [build_infrastructure_summary, assess_overall_migration_risk,
    List.countP_eq_length_filter]

/-- Claim C4: `build_risk_assessment` is exactly the record of the three
axis decision tables on exposure, data loss and migration complexity. -/
theorem build_risk_assessment_matches_spec (is_db is_exposed has_storage : Bool)
    (total : Nat) :
    build_risk_assessment is_db is_exposed has_storage total =
      { exposure_risk :=
          if is_db && is_exposed then "High"
          else if is_exposed && !is_db then "Medium"
          else "Low"
        data_loss_risk :=
          if is_db && has_storage then "High"
          else if has_storage && !is_db then "Medium"
          else "Low"
        migration_complexity :=
          if total > 6 then "High"
          else if total > 3 ∧ total ≤ 6 then "Medium"
          else "Low" } := by
  cases is_db <;> cases is_exposed <;> cases has_storage <;>
    simp [build_risk_assessment, assess_exposure_risk, assess_data_loss_risk,
      assess_migration_complexity] <;>
    split_ifs <;> simp_all

/-- Claim C5: `suggest_cloud_service` prefers a managed cache for redis
images (even when the database flag is also set), then a managed
relational database when the database flag is set, else a generic
compute target. -/
theorem suggest_cloud_service_matches_spec (image : Option String) (database_flag : Bool) :
    suggest_cloud_service image database_flag =
      if (match image with
          | some s => pyContains (pyLower s) "redis"
          | none => false) then "Managed Cache Service"
      else if database_flag then "Managed Relational Database Service"
      else "Virtual Machine or Container Service" := by
  cases image with
  | none => rfl
  | some s =>
    by_cases hs : s = ""
    · subst hs
      have : pyContains (pyLower "") "redis" = false := by decide
      simp [suggest_cloud_service, is_redis_image, this]
    · simp [suggest_cloud_service, is_redis_image, hs]

/-- Claim C7: a service whose fragment is not a mapping normalizes to an
absent image, empty ports, environment and volumes, all classification
flags false, and the generic compute recommendation; no error occurs
(the embedding is total). -/
theorem processService_non_mapping (total : Nat) (config : Yaml)
    (h : config.isMap = false) :
    (processService total config).image = none ∧
    (processService total config).ports = [] ∧
    (processService total config).environment = .list [] ∧
    (processService total config).volumes = [] ∧
    (processService total config).is_database = false ∧
    (processService total config).is_publicly_exposed = false ∧
    (processService total config).has_persistent_storage = false ∧
    (processService total config).suggested_cloud_service
      = "Virtual Machine or Container Service" := by
  cases config <;> simp_all [Yaml.isMap] <;>
    exact ⟨rfl, rfl, rfl, rfl, rfl, rfl, rfl, rfl⟩

/-- Witness for claim C7 at the concrete fragment `null`. -/
theorem processService_non_mapping_witness :
    (processService 1 .null).image = none ∧
    (processService 1 .null).ports = [] ∧
    (processService 1 .null).environment = .list [] ∧
    (processService 1 .null).volumes = [] ∧
    (processService 1 .null).is_database = false ∧
    (processService 1 .null).is_publicly_exposed = false ∧
    (processService 1 .null).has_persistent_storage = false ∧
    (processService 1 .null).suggested_cloud_service
      = "Virtual Machine or Container Service" :=
  processService_non_mapping 1 .null rfl

/-- Claim C8: `normalize_environment` maps null to the empty sequence,
keeps sequences and mappings unchanged (never re-shaping one into the
other), and wraps any other scalar into a singleton sequence. -/
theorem normalize_environment_matches_spec :
    normalize_environment .null = .list [] ∧
    (∀ xs : List Yaml, normalize_environment (.list xs) = .list xs) ∧
    (∀ kvs : List (Yaml × Yaml), normalize_environment (.map kvs) = .map kvs) ∧
    (∀ b : Bool, normalize_environment (.bool b) = .list [.bool b]) ∧
    (∀ n : Int, normalize_environment (.int n) = .list [.int n]) ∧
    (∀ s : String, normalize_environment (.str s) = .list [.str s]) :=
  ⟨rfl, fun _ => rfl, fun _ => rfl, fun _ => rfl, fun _ => rfl, fun _ => rfl⟩

section ServiceDictLemmas

theorem upsert_keys (k : String) (v : NormalizedService)
    (l : List (String × NormalizedService)) :
    (upsert k v l).map Prod.fst =
      if k ∈ l.map Prod.fst then l.map Prod.fst else l.map Prod.fst ++ [k] := by
  induction l with
  | nil => simp [upsert]
  | cons hd tl ih =>
    obtain ⟨k0, v0⟩ := hd
    by_cases hk : k0 = k
    · subst hk
      simp [upsert]
    · simp only [upsert, if_neg hk, List.map_cons, ih]
      have hne : ¬ k = k0 := fun h => hk h.symm
      by_cases hmem : k ∈ tl.map Prod.fst
      · simp [hmem, hne]
      · simp [hmem, hne]

theorem mem_upsert_keys (k : String) (v : NormalizedService)
    (l : List (String × NormalizedService)) :
    k ∈ (upsert k v l).map Prod.fst := by
  rw [upsert_keys]
  by_cases hmem : k ∈ l.map Prod.fst <;> simp [hmem]

theorem mem_upsert_keys_of_mem (k k' : String) (v : NormalizedService)
    (l : List (String × NormalizedService)) (h : k' ∈ l.map Prod.fst) :
    k' ∈ (upsert k v l).map Prod.fst := by
  rw [upsert_keys]
  by_cases hmem : k ∈ l.map Prod.fst <;> simp [hmem, h]

theorem nodup_upsert_keys (k : String) (v : NormalizedService)
    (l : List (String × NormalizedService)) (h : (l.map Prod.fst).Nodup) :
    ((upsert k v l).map Prod.fst).Nodup := by
  rw [upsert_keys]
  by_cases hmem : k ∈ l.map Prod.fst
  · simpa [hmem]
  · simp only [if_neg hmem]
    simpa [List.nodup_append, hmem] using h

theorem buildServices_keys_superset (t : Nat) (items : List (Yaml × Yaml))
    (acc : List (String × NormalizedService)) (k : String) (h : k ∈ acc.map Prod.fst) :
    k ∈ (buildServices t items acc).map Prod.fst := by
  induction items generalizing acc with
  | nil => exact h
  | cons hd tl ih =>
    obtain ⟨name, config⟩ := hd
    exact ih _ (mem_upsert_keys_of_mem _ _ _ _ h)

theorem buildServices_keys_of_mem (t : Nat) (items : List (Yaml × Yaml))
    (acc : List (String × NormalizedService)) (name config : Yaml)
    (h : (name, config) ∈ items) :
    pystr name ∈ (buildServices t items acc).map Prod.fst := by
  induction items generalizing acc with
  | nil => cases h
  | cons hd tl ih =>
    obtain ⟨n0, c0⟩ := hd
    rcases List.mem_cons.mp h with heq | htl
    · obtain ⟨h1, h2⟩ := Prod.mk.injEq .. ▸ heq
      cases h1
      cases h2
      exact buildServices_keys_superset t tl _ _ (mem_upsert_keys _ _ _)
    · exact ih _ htl

theorem buildServices_keys_nodup (t : Nat) (items : List (Yaml × Yaml))
    (acc : List (String × NormalizedService)) (h : (acc.map Prod.fst).Nodup) :
    ((buildServices t items acc).map Prod.fst).Nodup := by
  induction items generalizing acc with
  | nil => exact h
  | cons hd tl ih =>
    obtain ⟨name, config⟩ := hd
    exact ih _ (nodup_upsert_keys _ _ _ h)

theorem upsert_values_pred (P : NormalizedService → Prop) (k : String)
    (v : NormalizedService) (l : List (String × NormalizedService))
    (hl : ∀ p ∈ l, P p.2) (hv : P v) : ∀ p ∈ upsert k v l, P p.2 := by
  induction l with
  | nil =>
    intro p hp
    rcases List.mem_singleton.mp hp with rfl
    exact hv
  | cons hd tl ih =>
    obtain ⟨k0, v0⟩ := hd
    intro p hp
    simp only [upsert] at hp
    by_cases hk : k0 = k
    · rw [if_pos hk] at hp
      rcases List.mem_cons.mp hp with rfl | htl
      · exact hv
      · exact hl p (List.mem_cons_of_mem _ htl)
    · rw [if_neg hk] at hp
      rcases List.mem_cons.mp hp with rfl | htl
      · exact hl _ (List.mem_cons_self _ _)
      · exact ih (fun q hq => hl q (List.mem_cons_of_mem _ hq)) p htl

theorem buildServices_values_pred (P : NormalizedService → Prop) (t : Nat)
    (items : List (Yaml × Yaml)) (acc : List (String × NormalizedService))
    (hacc : ∀ p ∈ acc, P p.2)
    (hitems : ∀ q ∈ items, P (processService t q.2)) :
    ∀ p ∈ buildServices t items acc, P p.2 := by
  induction items generalizing acc with
  | nil => exact hacc
  | cons hd tl ih =>
    obtain ⟨name, config⟩ := hd
    exact ih _
      (upsert_values_pred P _ _ _ hacc (hitems (name, config) (List.mem_cons_self _ _)))
      (fun q hq => hitems q (List.mem_cons_of_mem _ hq))

end ServiceDictLemmas

/-- Claim C3: every service name present in the input services mapping
appears exactly once among the keys of the output services mapping,
keyed by its deterministic string form. -/
theorem analyze_compose_names_once (services_data : List (Yaml × Yaml))
    (name config : Yaml) (h : (name, config) ∈ services_data) :
    ((analyze_compose services_data).services.map Prod.fst).count (pystr name) = 1 :=
  List.count_eq_one_of_mem
    (buildServices_keys_nodup _ _ [] (by simp))
    (buildServices_keys_of_mem _ _ [] _ _ h)

/-- Witness for claim C3 on a concrete one-service manifest. -/
theorem analyze_compose_names_once_witness :
    ((analyze_compose [((.str "web" : Yaml), (.null : Yaml))]).services.map
      Prod.fst).count (pystr (.str "web")) = 1 :=
  analyze_compose_names_once [((.str "web" : Yaml), (.null : Yaml))] (.str "web") .null
    (List.Mem.head _)

/-- Claim C10: every service's migration complexity is computed from the
number of entries of the input mapping (counted before names are
stringified), hence is one value across the whole response; the
response's service count is the output mapping's length, and with two
distinct input keys that stringify to the same name the input count
strictly exceeds the response's service count. -/
theorem migration_complexity_from_input_count :
    (∀ (services_data : List (Yaml × Yaml)) (p : String × NormalizedService),
      p ∈ (analyze_compose services_data).services →
        p.2.risk_assessment.migration_complexity
          = assess_migration_complexity services_data.length) ∧
    (∀ services_data : List (Yaml × Yaml),
      (analyze_compose services_data).service_count
        = (analyze_compose services_data).services.length) ∧
    (analyze_compose [((.int 1 : Yaml), (.null : Yaml)), (.str "1", .null)]).service_count
      < ([((.int 1 : Yaml), (.null : Yaml)), (.str "1", .null)] : List (Yaml × Yaml)).length := by
  refine ⟨?_, fun _ => rfl, by decide⟩
  intro services_data p hp
  exact buildServices_values_pred
    (fun svc => svc.risk_assessment.migration_complexity
      = assess_migration_complexity services_data.length)
    services_data.length services_data [] (by simp) (fun q _ => rfl) p hp

/-- Witness for claim C10 on a concrete one-service manifest. -/
theorem migration_complexity_from_input_count_witness :
    ((("web" : String), processService 1 .null) :
        String × NormalizedService).2.risk_assessment.migration_complexity
      = assess_migration_complexity
          ([((.str "web" : Yaml), (.null : Yaml))] : List (Yaml × Yaml)).length :=
  migration_complexity_from_input_count.1 [((.str "web" : Yaml), (.null : Yaml))]
    ("web", processService 1 .null) (List.Mem.head _)

/-- Claim C9: the pipeline is deterministic — two runs of the analysis
on the same input manifest yield identical output, with no hidden
state. -/
theorem analyze_compose_deterministic (services_data : List (Yaml × Yaml)) :
    (analyzeTwice services_data).1 = (analyzeTwice services_data).2 := rfl

end HelixInfra
